import Mathlib

/-!
# downloader-dll : `example_usage.cpp`

A shallow embedding of the command-line driver `main` of `example_usage.cpp`.

The driver talks to its platform (the Windows loader, the loaded module, standard
input) only through `LoadLibrary`, `GetProcAddress`, `GetLastError`, the two
resolved entry points and one `std::getline`.  These are gathered in the structure
`Platform`; `main` is a pure function of the platform and of `argv` which returns
how the run ends together with the ordered trace of everything the run did.
-/

namespace ExampleUsage

/-- The C type `int (*)(const char*)` shared by `DownloadFromUrlFunc` and
`DeleteFileFunc`: the callee reads a NUL-terminated C string and returns an `int`.
The elements of `argv` are C strings already. -/
abbrev EntryPoint := String → Int

/-- Everything outside the driver that a run can observe. -/
structure Platform where
  /-- The call `LoadLibrary(name)`: `none` is `NULL`, `some h` is the module handle. -/
  LoadLibrary : String → Option Nat
  /-- The call `GetProcAddress(h, name)`: `none` is `NULL`. -/
  GetProcAddress : Nat → String → Option EntryPoint
  /-- the `DWORD` given by the `GetLastError()` call of a failing run. -/
  GetLastError : Nat
  /-- the line `std::getline(std::cin, ..)` would extract; `none` when the extraction
  fails (end of input), in which case the target string is left empty. -/
  stdin_line : Option String

/-- One observable step of a run, in program order. -/
inductive Event where
  /-- text written to `std::cout` by one statement. -/
  | cout (text : String)
  /-- text written to `std::cerr` by one statement. -/
  | cerr (text : String)
  | loadLibrary (name : String)
  | getProcAddress (h : Nat) (name : String)
  | getLastError
  /-- a call through the `download_from_url` pointer. -/
  | callDownload (arg : String)
  /-- the `std::getline(std::cin, file_path)` read. -/
  | readLine
  /-- a call through the `delete_file` pointer. -/
  | callDelete (arg : String)
  | freeLibrary (h : Nat)
  deriving DecidableEq

/-- How a run ends: `main` returns a status, or control is transferred through a
`NULL` function pointer. -/
inductive Outcome where
  | returned (status : Int)
  | nullCall
  deriving DecidableEq

/-- The text a callee reads through the `const char*` given by `s.c_str()`: the
characters of `s` before its first NUL byte (all of `s` when it holds none). -/
def c_str (s : String) : String :=
  String.mk (s.data.takeWhile (fun c => c != Char.ofNat 0))

/-- The text written by `std::endl`. -/
def endl : String := "\n"

/-- The `for (int i = 2; i < argc; i++)` loop with its `break`, entered at index `i`
with `n = argc - i` indices left; the result is `delete_after_download`. -/
def scanFrom (argv : List String) : Nat → Nat → Bool
  | _, 0 => false
  | i, n + 1 => if argv.getD i "" = "--delete" then true else scanFrom argv (i + 1) n

/-- The value of `delete_after_download` after the flag scan of `main`. -/
def delete_after_download (argv : List String) : Bool :=
  scanFrom argv 2 (argv.length - 2)

/-- The same loop without the `break`: every remaining index is visited. -/
def scanAllFrom (argv : List String) : Nat → Nat → Bool → Bool
  | _, 0, acc => acc
  | i, n + 1, acc =>
    scanAllFrom argv (i + 1) n (if argv.getD i "" = "--delete" then true else acc)

/-- The three usage lines printed when `argc < 2`. -/
def usage : List Event :=
  [ .cout ("Usage: example_usage <url> [--delete]" ++ endl),
    .cout ("Example: example_usage https://www.youtube.com/watch?v=dQw4w9WgXcQ" ++ endl),
    .cout ("Add --delete to test the file deletion functionality" ++ endl) ]

/-- The deletion test of `main` (the body of the inner `if (delete_after_download)`):
prompt, read one line, and call through `delete_file` on `file_path.c_str()` unless
the line is empty.  The echo `std::cout << file_path` writes the whole `std::string`.
The boolean is `false` exactly when the call went through a `NULL` pointer, where
the run stops. -/
def deletion (p : Platform) (delete_file : Option EntryPoint) : Bool × List Event :=
  let file_path := p.stdin_line.getD ""
  let pre := [Event.cout "Enter the path of the file to delete: ", Event.readLine]
  if file_path ≠ "" then
    match delete_file with
    | none => (false, pre ++ [.cout ("Deleting file: " ++ file_path ++ endl)])
    | some f =>
      let delete_result := f (c_str file_path)
      (true, pre ++ [.cout ("Deleting file: " ++ file_path ++ endl),
        .callDelete (c_str file_path),
        if delete_result ≠ 0 then .cout ("File deletion successful!" ++ endl)
        else .cout ("File deletion failed." ++ endl)])
  else
    (true, pre ++ [.cout ("No file path provided, skipping deletion." ++ endl)])

/-- The part of `main` from "Call the download function" to the end, with the
locals `hDLL`, `url`, `delete_after_download`, `download_from_url`, `delete_file`. -/
def run (p : Platform) (hDLL : Nat) (url : String) (del : Bool)
    (download_from_url : EntryPoint) (delete_file : Option EntryPoint) :
    Outcome × List Event :=
  let pre := [Event.cout ("Downloading from URL: " ++ url ++ endl), Event.callDownload url]
  let result := download_from_url url
  if result ≠ 0 then
    let pre := pre ++ [.cout ("Download successful!" ++ endl)]
    if del then
      match deletion p delete_file with
      | (false, evs) => (.nullCall, pre ++ evs)
      | (true, evs) => (.returned 0, pre ++ evs ++ [.freeLibrary hDLL])
    else
      (.returned 0, pre ++ [.freeLibrary hDLL])
  else
    (.returned 0, pre ++ [.cout ("Download failed." ++ endl), .freeLibrary hDLL])

/-- The function `main(argc, argv)`, with `argc = argv.length`. -/
def main (p : Platform) (argv : List String) : Outcome × List Event :=
  if argv.length < 2 then
    (.returned 1, usage)
  else
    let url := argv.getD 1 ""
    let del := delete_after_download argv
    let t := [Event.loadLibrary "downloader_dll.pyd"]
    match p.LoadLibrary "downloader_dll.pyd" with
    | none =>
      (.returned 1, t ++ [.getLastError,
        .cerr ("Failed to load DLL. Error code: " ++ toString p.GetLastError ++ endl)])
    | some hDLL =>
      let t := t ++ [.getProcAddress hDLL "download_from_url"]
      match p.GetProcAddress hDLL "download_from_url" with
      | none =>
        (.returned 1, t ++ [.getLastError,
          .cerr ("Failed to get download function address. Error code: "
            ++ toString p.GetLastError ++ endl),
          .freeLibrary hDLL])
      | some download_from_url =>
        if del then
          let t := t ++ [.getProcAddress hDLL "delete_file"]
          match p.GetProcAddress hDLL "delete_file" with
          | none =>
            (.returned 1, t ++ [.getLastError,
              .cerr ("Failed to get delete function address. Error code: "
                ++ toString p.GetLastError ++ endl),
              .freeLibrary hDLL])
          | some delete_file =>
            let r := run p hDLL url del download_from_url (some delete_file)
            (r.1, t ++ r.2)
        else
          let r := run p hDLL url del download_from_url none
          (r.1, t ++ r.2)

/-- A stub platform: the module loads with handle `7`, exports both entry points,
`download_from_url` answers `dl`, `delete_file` answers `rm`, and standard input
holds `line`. -/
def stub (dl rm : Int) (line : Option String) : Platform where
  LoadLibrary := fun _ => some 7
  GetProcAddress := fun _ name =>
    if name = "download_from_url" then some (fun _ => dl)
    else if name = "delete_file" then some (fun _ => rm)
    else none
  GetLastError := 0
  stdin_line := line

/-- A platform on which `downloader_dll.pyd` cannot be loaded; error code 126. -/
def noModule : Platform where
  LoadLibrary := fun _ => none
  GetProcAddress := fun _ _ => none
  GetLastError := 126
  stdin_line := none

/-- Recognises a call through `download_from_url`. -/
def isCallDownload : Event → Bool
  | .callDownload _ => true
  | _ => false

/-- Recognises a call through `delete_file`. -/
def isCallDelete : Event → Bool
  | .callDelete _ => true
  | _ => false

/-- Recognises the read of standard input. -/
def isReadLine : Event → Bool
  | .readLine => true
  | _ => false

/-- Recognises a `FreeLibrary` call. -/
def isFreeLibrary : Event → Bool
  | .freeLibrary _ => true
  | _ => false

/-- Recognises text written to `std::cout`. -/
def isCout : Event → Bool
  | .cout _ => true
  | _ => false

/-- The module loads, `download_from_url` resolves and, in deletion mode,
`delete_file` resolves. -/
def Resolves (p : Platform) (argv : List String) : Prop :=
  ∃ h, p.LoadLibrary "downloader_dll.pyd" = some h ∧
    (∃ dl, p.GetProcAddress h "download_from_url" = some dl) ∧
    (delete_after_download argv = true → ∃ rm, p.GetProcAddress h "delete_file" = some rm)

/-- The module fails to load, or `download_from_url` fails to resolve, or in deletion
mode `delete_file` fails to resolve. -/
def Fails (p : Platform) (argv : List String) : Prop :=
  p.LoadLibrary "downloader_dll.pyd" = none ∨
  (∃ h, p.LoadLibrary "downloader_dll.pyd" = some h ∧
    p.GetProcAddress h "download_from_url" = none) ∨
  (∃ h, p.LoadLibrary "downloader_dll.pyd" = some h ∧ delete_after_download argv = true ∧
    p.GetProcAddress h "delete_file" = none)

/-- The run reaches the call of `download_from_url` (the module loads and every
required symbol resolves) and that call returns `r`. -/
def DownloadResult (p : Platform) (argv : List String) (r : Int) : Prop :=
  2 ≤ argv.length ∧ ∃ hDLL dl,
    p.LoadLibrary "downloader_dll.pyd" = some hDLL ∧
    p.GetProcAddress hDLL "download_from_url" = some dl ∧
    (delete_after_download argv = true →
      ∃ rm, p.GetProcAddress hDLL "delete_file" = some rm) ∧
    dl (argv.getD 1 "") = r

/-- The spec's reading of the path "after trimming": the line with its surrounding
whitespace removed.  It follows the words of the spec; `main` has no such step. -/
def trimmed (s : String) : String :=
  String.mk ((s.data.dropWhile Char.isWhitespace).reverse.dropWhile Char.isWhitespace).reverse

/-! ## Lemmas on the flag scan -/

theorem scanFrom_eq_true (argv : List String) (n i : Nat) :
    scanFrom argv i n = true ↔ ∃ j, i ≤ j ∧ j < i + n ∧ argv.getD j "" = "--delete" := by
  induction n generalizing i with
  | zero => simp [scanFrom]; intro j hj; omega
  | succ n ih =>
    unfold scanFrom
    by_cases hi : argv.getD i "" = "--delete"
    · simp only [hi, if_true, true_iff]
      exact ⟨i, le_refl _, by omega, hi⟩
    · simp only [hi, if_false, ih]
      constructor
      · rintro ⟨j, h1, h2, h3⟩
        exact ⟨j, by omega, by omega, h3⟩
      · rintro ⟨j, h1, h2, h3⟩
        have : j ≠ i := fun e => hi (e ▸ h3)
        exact ⟨j, by omega, by omega, h3⟩

theorem scanAllFrom_eq (argv : List String) (n i : Nat) (acc : Bool) :
    scanAllFrom argv i n acc = (acc || scanFrom argv i n) := by
  induction n generalizing i acc with
  | zero => simp [scanAllFrom, scanFrom]
  | succ n ih =>
    unfold scanAllFrom scanFrom
    rw [ih]
    by_cases hi : argv.getD i "" = "--delete" <;> cases acc <;> simp [hi]

theorem getD_eq_iff (argv : List String) (j : Nat) (hj : j < argv.length) (s : String) :
    argv.getD j "" = s ↔ argv[j]? = some s := by
  simp [List.getD_eq_getElem?_getD, List.getElem?_eq_getElem hj]

theorem delete_after_download_iff (argv : List String) (h : 2 ≤ argv.length) :
    delete_after_download argv = true ↔ ∃ j, 2 ≤ j ∧ argv[j]? = some "--delete" := by
  unfold delete_after_download
  rw [scanFrom_eq_true]
  constructor
  · rintro ⟨j, h1, h2, h3⟩
    exact ⟨j, h1, (getD_eq_iff argv j (by omega) _).1 h3⟩
  · rintro ⟨j, h1, h2⟩
    have hj : j < argv.length := by
      by_contra hc
      rw [List.getElem?_eq_none (by omega)] at h2
      cases h2
    exact ⟨j, h1, by omega, (getD_eq_iff argv j hj _).2 h2⟩

/-! ## The paths through `main` -/

theorem main_usage (p : Platform) (argv : List String) (h : argv.length < 2) :
    main p argv = (.returned 1, usage) := by
  simp [main, h]

theorem main_load_fails (p : Platform) (argv : List String) (h : 2 ≤ argv.length)
    (hl : p.LoadLibrary "downloader_dll.pyd" = none) :
    main p argv = (.returned 1, [.loadLibrary "downloader_dll.pyd", .getLastError,
      .cerr ("Failed to load DLL. Error code: " ++ toString p.GetLastError ++ endl)]) := by
  simp [main, not_lt.mpr h, hl]

theorem main_download_unresolved (p : Platform) (argv : List String) (h : 2 ≤ argv.length)
    (hDLL : Nat) (hl : p.LoadLibrary "downloader_dll.pyd" = some hDLL)
    (hd : p.GetProcAddress hDLL "download_from_url" = none) :
    main p argv = (.returned 1, [.loadLibrary "downloader_dll.pyd",
      .getProcAddress hDLL "download_from_url", .getLastError,
      .cerr ("Failed to get download function address. Error code: "
        ++ toString p.GetLastError ++ endl),
      .freeLibrary hDLL]) := by
  simp [main, not_lt.mpr h, hl, hd]

theorem main_delete_unresolved (p : Platform) (argv : List String) (h : 2 ≤ argv.length)
    (hDLL : Nat) (hl : p.LoadLibrary "downloader_dll.pyd" = some hDLL)
    (dl : EntryPoint) (hd : p.GetProcAddress hDLL "download_from_url" = some dl)
    (hflag : delete_after_download argv = true)
    (hr : p.GetProcAddress hDLL "delete_file" = none) :
    main p argv = (.returned 1, [.loadLibrary "downloader_dll.pyd",
      .getProcAddress hDLL "download_from_url", .getProcAddress hDLL "delete_file",
      .getLastError,
      .cerr ("Failed to get delete function address. Error code: "
        ++ toString p.GetLastError ++ endl),
      .freeLibrary hDLL]) := by
  simp [main, not_lt.mpr h, hl, hd, hflag, hr]

theorem main_plain (p : Platform) (argv : List String) (h : 2 ≤ argv.length)
    (hDLL : Nat) (hl : p.LoadLibrary "downloader_dll.pyd" = some hDLL)
    (dl : EntryPoint) (hd : p.GetProcAddress hDLL "download_from_url" = some dl)
    (hflag : delete_after_download argv = false) :
    main p argv = (.returned 0, [.loadLibrary "downloader_dll.pyd",
      .getProcAddress hDLL "download_from_url",
      .cout ("Downloading from URL: " ++ argv.getD 1 "" ++ endl),
      .callDownload (argv.getD 1 ""),
      if dl (argv.getD 1 "") ≠ 0 then .cout ("Download successful!" ++ endl)
      else .cout ("Download failed." ++ endl),
      .freeLibrary hDLL]) := by
  by_cases hres : dl (argv.getD 1 "") = 0 <;>
    simp only [List.getD_eq_getElem?_getD] at hres <;>
    simp [main, run, not_lt.mpr h, hl, hd, hflag, hres]

theorem main_download_failed (p : Platform) (argv : List String) (h : 2 ≤ argv.length)
    (hDLL : Nat) (hl : p.LoadLibrary "downloader_dll.pyd" = some hDLL)
    (dl : EntryPoint) (hd : p.GetProcAddress hDLL "download_from_url" = some dl)
    (rm : EntryPoint) (hflag : delete_after_download argv = true)
    (hr : p.GetProcAddress hDLL "delete_file" = some rm)
    (hres : dl (argv.getD 1 "") = 0) :
    main p argv = (.returned 0, [.loadLibrary "downloader_dll.pyd",
      .getProcAddress hDLL "download_from_url", .getProcAddress hDLL "delete_file",
      .cout ("Downloading from URL: " ++ argv.getD 1 "" ++ endl),
      .callDownload (argv.getD 1 ""),
      .cout ("Download failed." ++ endl),
      .freeLibrary hDLL]) := by
  simp only [List.getD_eq_getElem?_getD] at hres
  simp [main, run, not_lt.mpr h, hl, hd, hflag, hr, hres]

theorem main_no_path (p : Platform) (argv : List String) (h : 2 ≤ argv.length)
    (hDLL : Nat) (hl : p.LoadLibrary "downloader_dll.pyd" = some hDLL)
    (dl : EntryPoint) (hd : p.GetProcAddress hDLL "download_from_url" = some dl)
    (rm : EntryPoint) (hflag : delete_after_download argv = true)
    (hr : p.GetProcAddress hDLL "delete_file" = some rm)
    (hres : dl (argv.getD 1 "") ≠ 0) (hline : p.stdin_line.getD "" = "") :
    main p argv = (.returned 0, [.loadLibrary "downloader_dll.pyd",
      .getProcAddress hDLL "download_from_url", .getProcAddress hDLL "delete_file",
      .cout ("Downloading from URL: " ++ argv.getD 1 "" ++ endl),
      .callDownload (argv.getD 1 ""),
      .cout ("Download successful!" ++ endl),
      .cout "Enter the path of the file to delete: ",
      .readLine,
      .cout ("No file path provided, skipping deletion." ++ endl),
      .freeLibrary hDLL]) := by
  simp only [List.getD_eq_getElem?_getD] at hres
  simp [main, run, deletion, not_lt.mpr h, hl, hd, hflag, hr, hres, hline]

theorem main_delete (p : Platform) (argv : List String) (h : 2 ≤ argv.length)
    (hDLL : Nat) (hl : p.LoadLibrary "downloader_dll.pyd" = some hDLL)
    (dl : EntryPoint) (hd : p.GetProcAddress hDLL "download_from_url" = some dl)
    (rm : EntryPoint) (hflag : delete_after_download argv = true)
    (hr : p.GetProcAddress hDLL "delete_file" = some rm)
    (hres : dl (argv.getD 1 "") ≠ 0) (hline : p.stdin_line.getD "" ≠ "") :
    main p argv = (.returned 0, [.loadLibrary "downloader_dll.pyd",
      .getProcAddress hDLL "download_from_url", .getProcAddress hDLL "delete_file",
      .cout ("Downloading from URL: " ++ argv.getD 1 "" ++ endl),
      .callDownload (argv.getD 1 ""),
      .cout ("Download successful!" ++ endl),
      .cout "Enter the path of the file to delete: ",
      .readLine,
      .cout ("Deleting file: " ++ p.stdin_line.getD "" ++ endl),
      .callDelete (c_str (p.stdin_line.getD "")),
      if rm (c_str (p.stdin_line.getD "")) ≠ 0 then .cout ("File deletion successful!" ++ endl)
      else .cout ("File deletion failed." ++ endl),
      .freeLibrary hDLL]) := by
  simp only [List.getD_eq_getElem?_getD] at hres
  by_cases hdel : rm (c_str (p.stdin_line.getD "")) = 0 <;>
    simp [main, run, deletion, not_lt.mpr h, hl, hd, hflag, hr, hres, hline, hdel]

/-- Case analysis on a run: a property holds of `main p argv` as soon as it holds of
the result of each of the eight paths through `main`. -/
theorem main_cases (p : Platform) (argv : List String)
    (P : Outcome × List Event → Prop)
    (usage_case : argv.length < 2 → P (.returned 1, usage))
    (load_case : 2 ≤ argv.length → p.LoadLibrary "downloader_dll.pyd" = none →
      P (.returned 1, [.loadLibrary "downloader_dll.pyd", .getLastError,
        .cerr ("Failed to load DLL. Error code: " ++ toString p.GetLastError ++ endl)]))
    (download_case : 2 ≤ argv.length → ∀ hDLL,
      p.LoadLibrary "downloader_dll.pyd" = some hDLL →
      p.GetProcAddress hDLL "download_from_url" = none →
      P (.returned 1, [.loadLibrary "downloader_dll.pyd",
        .getProcAddress hDLL "download_from_url", .getLastError,
        .cerr ("Failed to get download function address. Error code: "
          ++ toString p.GetLastError ++ endl),
        .freeLibrary hDLL]))
    (delete_case : 2 ≤ argv.length → ∀ hDLL dl,
      p.LoadLibrary "downloader_dll.pyd" = some hDLL →
      p.GetProcAddress hDLL "download_from_url" = some dl →
      delete_after_download argv = true →
      p.GetProcAddress hDLL "delete_file" = none →
      P (.returned 1, [.loadLibrary "downloader_dll.pyd",
        .getProcAddress hDLL "download_from_url", .getProcAddress hDLL "delete_file",
        .getLastError,
        .cerr ("Failed to get delete function address. Error code: "
          ++ toString p.GetLastError ++ endl),
        .freeLibrary hDLL]))
    (plain_case : 2 ≤ argv.length → ∀ hDLL dl,
      p.LoadLibrary "downloader_dll.pyd" = some hDLL →
      p.GetProcAddress hDLL "download_from_url" = some dl →
      delete_after_download argv = false →
      P (.returned 0, [.loadLibrary "downloader_dll.pyd",
        .getProcAddress hDLL "download_from_url",
        .cout ("Downloading from URL: " ++ argv.getD 1 "" ++ endl),
        .callDownload (argv.getD 1 ""),
        if dl (argv.getD 1 "") ≠ 0 then .cout ("Download successful!" ++ endl)
        else .cout ("Download failed." ++ endl),
        .freeLibrary hDLL]))
    (failed_case : 2 ≤ argv.length → ∀ hDLL dl rm,
      p.LoadLibrary "downloader_dll.pyd" = some hDLL →
      p.GetProcAddress hDLL "download_from_url" = some dl →
      delete_after_download argv = true →
      p.GetProcAddress hDLL "delete_file" = some rm →
      dl (argv.getD 1 "") = 0 →
      P (.returned 0, [.loadLibrary "downloader_dll.pyd",
        .getProcAddress hDLL "download_from_url", .getProcAddress hDLL "delete_file",
        .cout ("Downloading from URL: " ++ argv.getD 1 "" ++ endl),
        .callDownload (argv.getD 1 ""),
        .cout ("Download failed." ++ endl),
        .freeLibrary hDLL]))
    (no_path_case : 2 ≤ argv.length → ∀ hDLL dl rm,
      p.LoadLibrary "downloader_dll.pyd" = some hDLL →
      p.GetProcAddress hDLL "download_from_url" = some dl →
      delete_after_download argv = true →
      p.GetProcAddress hDLL "delete_file" = some rm →
      dl (argv.getD 1 "") ≠ 0 → p.stdin_line.getD "" = "" →
      P (.returned 0, [.loadLibrary "downloader_dll.pyd",
        .getProcAddress hDLL "download_from_url", .getProcAddress hDLL "delete_file",
        .cout ("Downloading from URL: " ++ argv.getD 1 "" ++ endl),
        .callDownload (argv.getD 1 ""),
        .cout ("Download successful!" ++ endl),
        .cout "Enter the path of the file to delete: ",
        .readLine,
        .cout ("No file path provided, skipping deletion." ++ endl),
        .freeLibrary hDLL]))
    (path_case : 2 ≤ argv.length → ∀ hDLL dl rm,
      p.LoadLibrary "downloader_dll.pyd" = some hDLL →
      p.GetProcAddress hDLL "download_from_url" = some dl →
      delete_after_download argv = true →
      p.GetProcAddress hDLL "delete_file" = some rm →
      dl (argv.getD 1 "") ≠ 0 → p.stdin_line.getD "" ≠ "" →
      P (.returned 0, [.loadLibrary "downloader_dll.pyd",
        .getProcAddress hDLL "download_from_url", .getProcAddress hDLL "delete_file",
        .cout ("Downloading from URL: " ++ argv.getD 1 "" ++ endl),
        .callDownload (argv.getD 1 ""),
        .cout ("Download successful!" ++ endl),
        .cout "Enter the path of the file to delete: ",
        .readLine,
        .cout ("Deleting file: " ++ p.stdin_line.getD "" ++ endl),
        .callDelete (c_str (p.stdin_line.getD "")),
        if rm (c_str (p.stdin_line.getD "")) ≠ 0 then .cout ("File deletion successful!" ++ endl)
        else .cout ("File deletion failed." ++ endl),
        .freeLibrary hDLL])) :
    P (main p argv) := by
  by_cases h : argv.length < 2
  · rw [main_usage p argv h]; exact usage_case h
  · have h2 : 2 ≤ argv.length := not_lt.mp h
    cases hl : p.LoadLibrary "downloader_dll.pyd" with
    | none => rw [main_load_fails p argv h2 hl]; exact load_case h2 hl
    | some hDLL =>
      cases hd : p.GetProcAddress hDLL "download_from_url" with
      | none =>
        rw [main_download_unresolved p argv h2 hDLL hl hd]
        exact download_case h2 hDLL hl hd
      | some dl =>
        cases hflag : delete_after_download argv with
        | false =>
          rw [main_plain p argv h2 hDLL hl dl hd hflag]
          exact plain_case h2 hDLL dl hl hd hflag
        | true =>
          cases hr : p.GetProcAddress hDLL "delete_file" with
          | none =>
            rw [main_delete_unresolved p argv h2 hDLL hl dl hd hflag hr]
            exact delete_case h2 hDLL dl hl hd hflag hr
          | some rm =>
            by_cases hz : dl (argv.getD 1 "") = 0
            · rw [main_download_failed p argv h2 hDLL hl dl hd rm hflag hr hz]
              exact failed_case h2 hDLL dl rm hl hd hflag hr hz
            · by_cases hline : p.stdin_line.getD "" = ""
              · rw [main_no_path p argv h2 hDLL hl dl hd rm hflag hr hz hline]
                exact no_path_case h2 hDLL dl rm hl hd hflag hr hz hline
              · rw [main_delete p argv h2 hDLL hl dl hd rm hflag hr hz hline]
                exact path_case h2 hDLL dl rm hl hd hflag hr hz hline

/-! ## Outcome messages are never confused with the echoed arguments -/

theorem append_ne_of_take (n : Nat) (a s e t : String) (hn : n ≤ a.data.length)
    (h : a.data.take n ≠ t.data.take n) : a ++ s ++ e ≠ t := by
  intro he
  apply h
  have h2 := congrArg (fun x : String => x.data.take n) he
  simp only [String.data_append, List.append_assoc] at h2
  rw [List.take_append_of_le_length hn] at h2
  exact h2

theorem downloading_ne_successful (url : String) :
    "Downloading from URL: " ++ url ++ endl ≠ "Download successful!" ++ endl :=
  append_ne_of_take 9 _ _ _ _ (by decide) (by decide)

theorem downloading_ne_failed (url : String) :
    "Downloading from URL: " ++ url ++ endl ≠ "Download failed." ++ endl :=
  append_ne_of_take 9 _ _ _ _ (by decide) (by decide)

theorem deleting_ne_successful (path : String) :
    "Deleting file: " ++ path ++ endl ≠ "Download successful!" ++ endl :=
  append_ne_of_take 2 _ _ _ _ (by decide) (by decide)

theorem deleting_ne_failed (path : String) :
    "Deleting file: " ++ path ++ endl ≠ "Download failed." ++ endl :=
  append_ne_of_take 2 _ _ _ _ (by decide) (by decide)

theorem downloading_ne_deletion_successful (url : String) :
    "Downloading from URL: " ++ url ++ endl ≠ "File deletion successful!" ++ endl :=
  append_ne_of_take 1 _ _ _ _ (by decide) (by decide)

theorem downloading_ne_deletion_failed (url : String) :
    "Downloading from URL: " ++ url ++ endl ≠ "File deletion failed." ++ endl :=
  append_ne_of_take 1 _ _ _ _ (by decide) (by decide)

theorem deleting_ne_deletion_successful (path : String) :
    "Deleting file: " ++ path ++ endl ≠ "File deletion successful!" ++ endl :=
  append_ne_of_take 1 _ _ _ _ (by decide) (by decide)

theorem deleting_ne_deletion_failed (path : String) :
    "Deleting file: " ++ path ++ endl ≠ "File deletion failed." ++ endl :=
  append_ne_of_take 1 _ _ _ _ (by decide) (by decide)

theorem downloading_ne_no_path (url : String) :
    "Downloading from URL: " ++ url ++ endl ≠
      "No file path provided, skipping deletion." ++ endl :=
  append_ne_of_take 1 _ _ _ _ (by decide) (by decide)

theorem downloading_ne_prompt (url : String) :
    "Downloading from URL: " ++ url ++ endl ≠ "Enter the path of the file to delete: " :=
  append_ne_of_take 1 _ _ _ _ (by decide) (by decide)

theorem deleting_ne_no_path (path : String) :
    "Deleting file: " ++ path ++ endl ≠
      "No file path provided, skipping deletion." ++ endl :=
  append_ne_of_take 1 _ _ _ _ (by decide) (by decide)

/-! ## The C string of a line -/

theorem c_str_of_no_nul (s : String) (h : ∀ c ∈ s.data, c ≠ Char.ofNat 0) :
    c_str s = s := by
  have hall : s.data.takeWhile (fun c => c != Char.ofNat 0) = s.data := by
    rw [List.takeWhile_eq_self_iff]
    intro c hc
    simpa using h c hc
  unfold c_str
  rw [hall]

theorem c_str_idem (s : String) : c_str (c_str s) = c_str s := by
  apply c_str_of_no_nul
  intro c hc
  have hc2 : c ∈ s.data.takeWhile (fun c => c != Char.ofNat 0) := hc
  simpa using List.mem_takeWhile_imp hc2

/-! ## Traces -/

/-- When exactly one event of a trace satisfies `q` and it is the last one, nothing
follows an event satisfying `q`. -/
theorem nothing_after_last (q : Event → Bool) (l pre post : List Event) (x y : Event)
    (hf : l.filter q = [x]) (hlast : l.getLast? = some x) (hy : q y = true)
    (hsplit : l = pre ++ y :: post) : post = [] := by
  subst hsplit
  rw [List.filter_append, List.filter_cons, if_pos hy] at hf
  have hlen := congrArg List.length hf
  simp only [List.length_append, List.length_cons, List.length_nil] at hlen
  have hpre : pre.filter q = [] := List.length_eq_zero.mp (by omega)
  have hpost : post.filter q = [] := List.length_eq_zero.mp (by omega)
  rw [hpre, hpost] at hf
  have hxy : y = x := by simpa using hf
  by_contra hne
  have hmem : x ∈ post := by
    have h1 : (pre ++ y :: post).getLast? = post.getLast? := by
      have h2 : pre ++ y :: post = (pre ++ [y]) ++ post := by simp
      rw [h2, List.getLast?_append_of_ne_nil _ hne]
    rw [h1] at hlast
    exact List.mem_of_getLast?_eq_some hlast
  have : x ∈ post.filter q := List.mem_filter.mpr ⟨hmem, hxy ▸ hy⟩
  rw [hpost] at this
  cases this

/-- The guard in `main` matters: entered in deletion mode with a `NULL` `delete_file`,
the final block calls through the `NULL` pointer as soon as the download succeeds and
a non-empty line is read. -/
theorem run_null_pointer (p : Platform) (hDLL : Nat) (url : String) (dl : EntryPoint)
    (hz : dl url ≠ 0) (hline : p.stdin_line.getD "" ≠ "") :
    (run p hDLL url true dl none).1 = .nullCall := by
  simp [run, deletion, hz, hline]

/-! ## The claims -/

/-- C1: when `main` is invoked with no user argument (`argc < 2`) the run prints the
three usage lines (spelled out below), returns the non-zero status 1, and does
nothing else: every event of the run is a write to `std::cout`, so no module is
loaded, no symbol is resolved, no entry point is invoked and standard input is not
read. -/
theorem usage_only_without_arguments (p : Platform) (argv : List String)
    (h : argv.length < 2) :
    (main p argv).1 = .returned 1 ∧ (1 : Int) ≠ 0 ∧
    (main p argv).2 =
      [ .cout "Usage: example_usage <url> [--delete]\n",
        .cout "Example: example_usage https://www.youtube.com/watch?v=dQw4w9WgXcQ\n",
        .cout "Add --delete to test the file deletion functionality\n" ] ∧
    (∀ e ∈ (main p argv).2, isCout e = true) ∧
    (∀ name, Event.loadLibrary name ∉ (main p argv).2) ∧
    (∀ hDLL name, Event.getProcAddress hDLL name ∉ (main p argv).2) ∧
    (∀ arg, Event.callDownload arg ∉ (main p argv).2) ∧
    (∀ arg, Event.callDelete arg ∉ (main p argv).2) ∧
    Event.readLine ∉ (main p argv).2 := by
  rw [main_usage p argv h]
  refine ⟨rfl, by decide, by decide, ?_⟩
  simp [usage, isCout]

theorem usage_only_without_arguments_witness :
    (["example_usage"] : List String).length < 2 ∧
    (main (stub 1 1 none) ["example_usage"]).1 = .returned 1 ∧
    (main (stub 1 1 none) ["example_usage"]).2 =
      [ .cout "Usage: example_usage <url> [--delete]\n",
        .cout "Example: example_usage https://www.youtube.com/watch?v=dQw4w9WgXcQ\n",
        .cout "Add --delete to test the file deletion functionality\n" ] :=
  ⟨by decide,
    (usage_only_without_arguments (stub 1 1 none) ["example_usage"] (by decide)).1,
    (usage_only_without_arguments (stub 1 1 none) ["example_usage"] (by decide)).2.2.1⟩

theorem status_of_resolves (p : Platform) (argv : List String) (h : 2 ≤ argv.length)
    (hres : Resolves p argv) : (main p argv).1 = .returned 0 := by
  obtain ⟨hDLL, hl, ⟨dl, hd⟩, hrm⟩ := hres
  cases hflag : delete_after_download argv with
  | false => rw [main_plain p argv h hDLL hl dl hd hflag]
  | true =>
    obtain ⟨rm, hr⟩ := hrm hflag
    by_cases hz : dl (argv.getD 1 "") = 0
    · rw [main_download_failed p argv h hDLL hl dl hd rm hflag hr hz]
    · by_cases hline : p.stdin_line.getD "" = ""
      · rw [main_no_path p argv h hDLL hl dl hd rm hflag hr hz hline]
      · rw [main_delete p argv h hDLL hl dl hd rm hflag hr hz hline]

theorem fails_of_not_resolves (p : Platform) (argv : List String)
    (hres : ¬ Resolves p argv) : Fails p argv := by
  cases hl : p.LoadLibrary "downloader_dll.pyd" with
  | none => exact Or.inl hl
  | some hDLL =>
    cases hd : p.GetProcAddress hDLL "download_from_url" with
    | none => exact Or.inr (Or.inl ⟨hDLL, hl, hd⟩)
    | some dl =>
      cases hr : p.GetProcAddress hDLL "delete_file" with
      | none =>
        cases hflag : delete_after_download argv with
        | false =>
          exact absurd ⟨hDLL, hl, ⟨dl, hd⟩, fun hc => by rw [hflag] at hc; cases hc⟩ hres
        | true => exact Or.inr (Or.inr ⟨hDLL, hl, hflag, hr⟩)
      | some rm => exact absurd ⟨hDLL, hl, ⟨dl, hd⟩, fun _ => ⟨rm, hr⟩⟩ hres

theorem not_resolves_of_fails (p : Platform) (argv : List String)
    (hf : Fails p argv) : ¬ Resolves p argv := by
  rintro ⟨hDLL, hl, ⟨dl, hd⟩, hrm⟩
  rcases hf with hf | ⟨k, hk, hf⟩ | ⟨k, hk, hflag, hf⟩
  · rw [hf] at hl; cases hl
  · rw [hl] at hk; cases hk; rw [hf] at hd; cases hd
  · rw [hl] at hk; cases hk
    obtain ⟨rm, hr⟩ := hrm hflag
    rw [hf] at hr; cases hr

/-- The three shapes of a run that stops on a load or resolution failure. -/
theorem main_of_fails (p : Platform) (argv : List String) (h : 2 ≤ argv.length)
    (hf : Fails p argv) :
    main p argv = (.returned 1, [.loadLibrary "downloader_dll.pyd", .getLastError,
      .cerr ("Failed to load DLL. Error code: " ++ toString p.GetLastError ++ endl)]) ∨
    (∃ hDLL, main p argv = (.returned 1, [.loadLibrary "downloader_dll.pyd",
      .getProcAddress hDLL "download_from_url", .getLastError,
      .cerr ("Failed to get download function address. Error code: "
        ++ toString p.GetLastError ++ endl),
      .freeLibrary hDLL])) ∨
    (∃ hDLL, main p argv = (.returned 1, [.loadLibrary "downloader_dll.pyd",
      .getProcAddress hDLL "download_from_url", .getProcAddress hDLL "delete_file",
      .getLastError,
      .cerr ("Failed to get delete function address. Error code: "
        ++ toString p.GetLastError ++ endl),
      .freeLibrary hDLL])) := by
  cases hl : p.LoadLibrary "downloader_dll.pyd" with
  | none => exact Or.inl (main_load_fails p argv h hl)
  | some hDLL =>
    cases hd : p.GetProcAddress hDLL "download_from_url" with
    | none => exact Or.inr (Or.inl ⟨hDLL, main_download_unresolved p argv h hDLL hl hd⟩)
    | some dl =>
      rcases hf with hf | ⟨k, hk, hf⟩ | ⟨k, hk, hflag, hf⟩
      · rw [hf] at hl; cases hl
      · rw [hl] at hk; cases hk; rw [hf] at hd; cases hd
      · rw [hl] at hk; cases hk
        exact Or.inr (Or.inr ⟨hDLL, main_delete_unresolved p argv h hDLL hl dl hd hflag hf⟩)

/-- C2: with at least one user argument, `main` returns 0 exactly when the module
loads, `download_from_url` resolves and, in deletion mode, `delete_file` resolves
(the results of the two entry points play no role); in every other case it returns 1.
A module without `delete_file` is no failure when `--delete` was not supplied. -/
theorem exit_status_zero_iff_resolves (p : Platform) (argv : List String)
    (h : 2 ≤ argv.length) :
    ((main p argv).1 = .returned 0 ↔ Resolves p argv) ∧
    (¬ Resolves p argv → (main p argv).1 = .returned 1) ∧
    (delete_after_download argv = false → ∀ hDLL dl,
      p.LoadLibrary "downloader_dll.pyd" = some hDLL →
      p.GetProcAddress hDLL "download_from_url" = some dl →
      p.GetProcAddress hDLL "delete_file" = none →
      (main p argv).1 = .returned 0) := by
  have hone : ¬ Resolves p argv → (main p argv).1 = .returned 1 := by
    intro hn
    rcases main_of_fails p argv h (fails_of_not_resolves p argv hn) with e | ⟨k, e⟩ | ⟨k, e⟩ <;>
      rw [e]
  refine ⟨⟨fun h0 => ?_, status_of_resolves p argv h⟩, hone, ?_⟩
  · by_contra hn
    rw [hone hn] at h0
    cases h0
  · intro hflag hDLL dl hl hd _
    exact status_of_resolves p argv h
      ⟨hDLL, hl, ⟨dl, hd⟩, fun hc => by rw [hflag] at hc; cases hc⟩

theorem exit_status_zero_iff_resolves_witness :
    2 ≤ (["example_usage", "ok"] : List String).length ∧
    ((main (stub 0 0 none) ["example_usage", "ok"]).1 = .returned 0 ↔
      Resolves (stub 0 0 none) ["example_usage", "ok"]) :=
  ⟨by decide, (exit_status_zero_iff_resolves (stub 0 0 none) ["example_usage", "ok"]
    (by decide)).1⟩

/-- C3: when the module fails to load, or `download_from_url` fails to resolve, or in
deletion mode `delete_file` fails to resolve, neither entry point is invoked,
standard input is not read, `GetLastError` is consulted and one of the three error
lines carrying its code is written to `std::cerr`, and the status is the non-zero 1. -/
theorem failure_runs_nothing (p : Platform) (argv : List String)
    (h : 2 ≤ argv.length) (hf : Fails p argv) :
    (main p argv).1 = .returned 1 ∧ (1 : Int) ≠ 0 ∧
    (∀ e ∈ (main p argv).2,
      isCallDownload e = false ∧ isCallDelete e = false ∧ isReadLine e = false) ∧
    Event.getLastError ∈ (main p argv).2 ∧
    (∃ msg ∈ ["Failed to load DLL. Error code: ",
        "Failed to get download function address. Error code: ",
        "Failed to get delete function address. Error code: "],
      Event.cerr (msg ++ toString p.GetLastError ++ endl) ∈ (main p argv).2) := by
  rcases main_of_fails p argv h hf with e | ⟨k, e⟩ | ⟨k, e⟩ <;> rw [e] <;>
    simp [isCallDownload, isCallDelete, isReadLine]

theorem failure_runs_nothing_witness :
    2 ≤ (["example_usage", "ok", "--delete"] : List String).length ∧
    Fails noModule ["example_usage", "ok", "--delete"] ∧
    (main noModule ["example_usage", "ok", "--delete"]).1 = .returned 1 :=
  ⟨by decide, Or.inl rfl,
    (failure_runs_nothing noModule ["example_usage", "ok", "--delete"] (by decide)
      (Or.inl rfl)).1⟩

/-- C4: for `argc >= 2`, `delete_after_download` is true after the flag scan exactly
when some argument at an index `>= 2` is the string `--delete`; when no argument
after the URL equals `--delete` (whatever the URL is, and whatever those arguments
contain) the flag stays false; and the loop with its early `break` computes the same
value as the loop that visits every remaining argument. -/
theorem flag_scan_exact (argv : List String) (h : 2 ≤ argv.length) :
    (delete_after_download argv = true ↔ ∃ j, 2 ≤ j ∧ argv[j]? = some "--delete") ∧
    ((∀ a ∈ argv.drop 2, a ≠ "--delete") → delete_after_download argv = false) ∧
    delete_after_download argv = scanAllFrom argv 2 (argv.length - 2) false := by
  refine ⟨delete_after_download_iff argv h, fun hno => ?_, ?_⟩
  · cases hflag : delete_after_download argv with
    | false => rfl
    | true =>
      obtain ⟨j, hj, hget⟩ := (delete_after_download_iff argv h).1 hflag
      have hmem : "--delete" ∈ argv.drop 2 := by
        rw [List.mem_iff_getElem?]
        refine ⟨j - 2, ?_⟩
        rw [List.getElem?_drop]
        have : 2 + (j - 2) = j := by omega
        rw [this]
        exact hget
      exact absurd rfl (hno _ hmem)
  · rw [scanAllFrom_eq]
    simp [delete_after_download]

theorem flag_scan_exact_witness :
    2 ≤ (["example_usage", "--delete", "--delete-all", "x--delete", "--del"] :
      List String).length ∧
    delete_after_download ["example_usage", "--delete", "--delete-all", "x--delete", "--del"]
      = false :=
  ⟨by decide,
    (flag_scan_exact ["example_usage", "--delete", "--delete-all", "x--delete", "--del"]
      (by decide)).2.1 (by decide)⟩

/-- C5: when the module loads and every required symbol resolves, the run calls
`download_from_url` exactly once, with `argv[1]`, and prints `Download successful!`
exactly when the result is non-zero and `Download failed.` exactly when it is zero. -/
theorem download_called_once (p : Platform) (argv : List String) (h : 2 ≤ argv.length)
    (hDLL : Nat) (hl : p.LoadLibrary "downloader_dll.pyd" = some hDLL)
    (dl : EntryPoint) (hd : p.GetProcAddress hDLL "download_from_url" = some dl)
    (hrm : delete_after_download argv = true →
      ∃ rm, p.GetProcAddress hDLL "delete_file" = some rm) :
    (main p argv).2.filter isCallDownload = [.callDownload (argv.getD 1 "")] ∧
    (Event.cout ("Download successful!" ++ endl) ∈ (main p argv).2 ↔
      dl (argv.getD 1 "") ≠ 0) ∧
    (Event.cout ("Download failed." ++ endl) ∈ (main p argv).2 ↔
      dl (argv.getD 1 "") = 0) := by
  cases hflag : delete_after_download argv with
  | false =>
    rw [main_plain p argv h hDLL hl dl hd hflag]
    by_cases hz : dl (argv.getD 1 "") = 0 <;>
      simp +decide [-List.getD_eq_getElem?_getD, isCallDownload, hz, downloading_ne_successful, downloading_ne_failed,
        Ne.symm (downloading_ne_successful _), Ne.symm (downloading_ne_failed _)]
  | true =>
    obtain ⟨rm, hr⟩ := hrm hflag
    by_cases hz : dl (argv.getD 1 "") = 0
    · rw [main_download_failed p argv h hDLL hl dl hd rm hflag hr hz]
      simp +decide [-List.getD_eq_getElem?_getD, isCallDownload, hz, Ne.symm (downloading_ne_successful _),
        Ne.symm (downloading_ne_failed _)]
    · by_cases hline : p.stdin_line.getD "" = ""
      · rw [main_no_path p argv h hDLL hl dl hd rm hflag hr hz hline]
        simp +decide [-List.getD_eq_getElem?_getD, isCallDownload, hz, Ne.symm (downloading_ne_successful _),
          Ne.symm (downloading_ne_failed _)]
      · rw [main_delete p argv h hDLL hl dl hd rm hflag hr hz hline]
        by_cases hdz : rm (c_str (p.stdin_line.getD "")) = 0 <;>
          simp +decide [-List.getD_eq_getElem?_getD, isCallDownload, hz, hdz, Ne.symm (downloading_ne_successful _),
            Ne.symm (downloading_ne_failed _), Ne.symm (deleting_ne_successful _),
            Ne.symm (deleting_ne_failed _)]

theorem download_called_once_witness :
    2 ≤ (["example_usage", "ok"] : List String).length ∧
    (main (stub 1 0 none) ["example_usage", "ok"]).2.filter isCallDownload
      = [.callDownload "ok"] ∧
    Event.cout ("Download successful!" ++ endl) ∈
      (main (stub 1 0 none) ["example_usage", "ok"]).2 :=
  ⟨by decide,
    (download_called_once (stub 1 0 none) ["example_usage", "ok"] (by decide) 7 rfl
      (fun _ => 1) rfl (fun hc => absurd hc (by decide))).1,
    (download_called_once (stub 1 0 none) ["example_usage", "ok"] (by decide) 7 rfl
      (fun _ => 1) rfl (fun hc => absurd hc (by decide))).2.1.2 (by decide)⟩

/-- C6: standard input is read exactly once when deletion mode is enabled and
`download_from_url` was called and returned non-zero, and is never read in any other
run; when the call returns zero the run prints `Download failed.`, neither prompts
for nor reads a path (with or without `--delete`), and never calls `delete_file`. -/
theorem stdin_read_at_most_once (p : Platform) (argv : List String) :
    (delete_after_download argv = true → ∀ r, r ≠ 0 → DownloadResult p argv r →
      (main p argv).2.filter isReadLine = [.readLine]) ∧
    ((¬ ∃ r, r ≠ 0 ∧ delete_after_download argv = true ∧ DownloadResult p argv r) →
      Event.readLine ∉ (main p argv).2) ∧
    (DownloadResult p argv 0 →
      Event.cout ("Download failed." ++ endl) ∈ (main p argv).2 ∧
      Event.cout "Enter the path of the file to delete: " ∉ (main p argv).2 ∧
      Event.readLine ∉ (main p argv).2 ∧
      ∀ arg, Event.callDelete arg ∉ (main p argv).2) := by
  refine main_cases p argv
    (fun t =>
      (delete_after_download argv = true → ∀ r, r ≠ 0 → DownloadResult p argv r →
        t.2.filter isReadLine = [.readLine]) ∧
      ((¬ ∃ r, r ≠ 0 ∧ delete_after_download argv = true ∧ DownloadResult p argv r) →
        Event.readLine ∉ t.2) ∧
      (DownloadResult p argv 0 →
        Event.cout ("Download failed." ++ endl) ∈ t.2 ∧
        Event.cout "Enter the path of the file to delete: " ∉ t.2 ∧
        Event.readLine ∉ t.2 ∧
        ∀ arg, Event.callDelete arg ∉ t.2)) ?_ ?_ ?_ ?_ ?_ ?_ ?_ ?_
  · intro h
    have hno : ∀ r, ¬ DownloadResult p argv r := fun r hr => by
      have := hr.1; omega
    refine ⟨fun _ r _ hr => absurd hr (hno r), fun _ => by simp [usage],
      fun hr => absurd hr (hno 0)⟩
  · intro h hl
    have hno : ∀ r, ¬ DownloadResult p argv r := by
      rintro r ⟨_, k, dl, hk, _⟩
      rw [hl] at hk; cases hk
    exact ⟨fun _ r _ hr => absurd hr (hno r), fun _ => by simp,
      fun hr => absurd hr (hno 0)⟩
  · intro h hDLL hl hd
    have hno : ∀ r, ¬ DownloadResult p argv r := by
      rintro r ⟨_, k, dl, hk, hkd, _⟩
      rw [hl] at hk; cases hk; rw [hd] at hkd; cases hkd
    exact ⟨fun _ r _ hr => absurd hr (hno r), fun _ => by simp,
      fun hr => absurd hr (hno 0)⟩
  · intro h hDLL dl hl hd hflag hr
    have hno : ∀ r, ¬ DownloadResult p argv r := by
      rintro r ⟨_, k, dl2, hk, _, hkr, _⟩
      rw [hl] at hk; cases hk
      obtain ⟨rm, hrm⟩ := hkr hflag
      rw [hr] at hrm; cases hrm
    exact ⟨fun _ r _ hr => absurd hr (hno r), fun _ => by simp,
      fun hr => absurd hr (hno 0)⟩
  · intro h hDLL dl hl hd hflag
    refine ⟨fun hc => absurd (hflag.symm.trans hc) (by decide), fun _ => ?_, ?_⟩
    · by_cases hz : dl (argv.getD 1 "") = 0 <;> simp [-List.getD_eq_getElem?_getD, hz]
    · rintro ⟨_, k, dl2, hk, hkd, _, hz⟩
      rw [hl] at hk; cases hk; rw [hd] at hkd; cases hkd
      simp +decide [-List.getD_eq_getElem?_getD, hz, Ne.symm (downloading_ne_prompt _)]
  · intro h hDLL dl rm hl hd hflag hr hz
    refine ⟨?_, fun _ => by simp,
      fun _ => by simp +decide [-List.getD_eq_getElem?_getD, Ne.symm (downloading_ne_prompt _)]⟩
    rintro _ r hr0 ⟨_, k, dl2, hk, hkd, _, hres⟩
    rw [hl] at hk; cases hk; rw [hd] at hkd; cases hkd
    exact absurd (hres.symm.trans hz) hr0
  · intro h hDLL dl rm hl hd hflag hr hz hline
    refine ⟨fun _ _ _ _ => by simp [isReadLine], fun hn => ?_, ?_⟩
    · exact absurd ⟨_, hz, hflag, h, hDLL, dl, hl, hd, fun _ => ⟨rm, hr⟩, rfl⟩ hn
    · rintro ⟨_, k, dl2, hk, hkd, _, hres⟩
      rw [hl] at hk; cases hk; rw [hd] at hkd; cases hkd
      exact absurd hres hz
  · intro h hDLL dl rm hl hd hflag hr hz hline
    refine ⟨fun _ _ _ _ => ?_, fun hn => ?_, ?_⟩
    · by_cases hdz : rm (c_str (p.stdin_line.getD "")) = 0 <;> simp [isReadLine, hdz]
    · exact absurd ⟨_, hz, hflag, h, hDLL, dl, hl, hd, fun _ => ⟨rm, hr⟩, rfl⟩ hn
    · rintro ⟨_, k, dl2, hk, hkd, _, hres⟩
      rw [hl] at hk; cases hk; rw [hd] at hkd; cases hkd
      exact absurd hres hz

theorem stdin_read_at_most_once_witness :
    delete_after_download ["example_usage", "ok", "--delete"] = true ∧
    DownloadResult (stub 1 1 (some "video.mp4")) ["example_usage", "ok", "--delete"] 1 ∧
    (main (stub 1 1 (some "video.mp4")) ["example_usage", "ok", "--delete"]).2.filter
      isReadLine = [.readLine] :=
  ⟨by decide, ⟨by decide, 7, fun _ => 1, rfl, rfl, fun _ => ⟨fun _ => 1, rfl⟩, rfl⟩,
    (stdin_read_at_most_once (stub 1 1 (some "video.mp4"))
      ["example_usage", "ok", "--delete"]).1 (by decide) 1 (by decide)
      ⟨by decide, 7, fun _ => 1, rfl, rfl, fun _ => ⟨fun _ => 1, rfl⟩, rfl⟩⟩

/-- C7, as the code has it: in deletion mode after a successful download, when the
line read from standard input is empty (zero length; no trimming is applied) the
deletion is skipped, `No file path provided, skipping deletion.` is printed and
`delete_file` is never called; for a non-empty line, whitespace-only lines included,
the deletion is not skipped: `delete_file` is called and the message is not printed. -/
theorem empty_path_skips_deletion (p : Platform) (argv : List String)
    (h : 2 ≤ argv.length)
    (hDLL : Nat) (hl : p.LoadLibrary "downloader_dll.pyd" = some hDLL)
    (dl : EntryPoint) (hd : p.GetProcAddress hDLL "download_from_url" = some dl)
    (rm : EntryPoint) (hflag : delete_after_download argv = true)
    (hr : p.GetProcAddress hDLL "delete_file" = some rm)
    (hz : dl (argv.getD 1 "") ≠ 0) :
    (p.stdin_line.getD "" = "" →
      Event.cout ("No file path provided, skipping deletion." ++ endl) ∈ (main p argv).2 ∧
      ∀ arg, Event.callDelete arg ∉ (main p argv).2) ∧
    (p.stdin_line.getD "" ≠ "" →
      (∃ arg, Event.callDelete arg ∈ (main p argv).2) ∧
      Event.cout ("No file path provided, skipping deletion." ++ endl) ∉ (main p argv).2) := by
  constructor
  · intro hline
    rw [main_no_path p argv h hDLL hl dl hd rm hflag hr hz hline]
    simp
  · intro hline
    rw [main_delete p argv h hDLL hl dl hd rm hflag hr hz hline]
    refine ⟨⟨c_str (p.stdin_line.getD ""), by simp⟩, ?_⟩
    by_cases hdz : rm (c_str (p.stdin_line.getD "")) = 0 <;>
      simp +decide [-List.getD_eq_getElem?_getD, hdz, Ne.symm (downloading_ne_no_path _),
        Ne.symm (deleting_ne_no_path _)]

theorem empty_path_skips_deletion_witness :
    2 ≤ (["example_usage", "ok", "--delete"] : List String).length ∧
    Event.cout ("No file path provided, skipping deletion." ++ endl) ∈
      (main (stub 1 1 (some "")) ["example_usage", "ok", "--delete"]).2 ∧
    ∀ arg, Event.callDelete arg ∉
      (main (stub 1 1 (some "")) ["example_usage", "ok", "--delete"]).2 :=
  ⟨by decide,
    (empty_path_skips_deletion (stub 1 1 (some "")) ["example_usage", "ok", "--delete"]
      (by decide) 7 rfl (fun _ => 1) rfl (fun _ => 1) (by decide) rfl (by decide)).1 rfl⟩

/-- C7 as stated fails: with `--delete`, a successful download and the line `" "` (or
a tab) on standard input, the path is empty after trimming, yet `delete_file` is
called with that line and the "no path provided" message is not printed. -/
theorem whitespace_path_is_deleted :
    delete_after_download ["example_usage", "ok", "--delete"] = true ∧
    (main (stub 1 1 (some " ")) ["example_usage", "ok", "--delete"]).2.filter isCallDownload
      = [.callDownload "ok"] ∧
    Event.cout ("Download successful!" ++ endl) ∈
      (main (stub 1 1 (some " ")) ["example_usage", "ok", "--delete"]).2 ∧
    trimmed " " = "" ∧
    Event.callDelete " " ∈
      (main (stub 1 1 (some " ")) ["example_usage", "ok", "--delete"]).2 ∧
    Event.cout ("No file path provided, skipping deletion." ++ endl) ∉
      (main (stub 1 1 (some " ")) ["example_usage", "ok", "--delete"]).2 ∧
    trimmed "\t" = "" ∧
    Event.callDelete "\t" ∈
      (main (stub 1 1 (some "\t")) ["example_usage", "ok", "--delete"]).2 := by
  decide

/-- C8, as the code has it: in deletion mode after a successful download, for a
non-empty line read from standard input, `delete_file` is called exactly once, on
the C string of the line (its characters before the first NUL byte), which is the
very line, untrimmed and uncut, whenever the line holds no NUL byte; the run prints
`File deletion successful!` exactly when the result of that call is non-zero and
`File deletion failed.` exactly when it is zero. -/
theorem delete_called_once_with_c_string (p : Platform) (argv : List String)
    (h : 2 ≤ argv.length)
    (hDLL : Nat) (hl : p.LoadLibrary "downloader_dll.pyd" = some hDLL)
    (dl : EntryPoint) (hd : p.GetProcAddress hDLL "download_from_url" = some dl)
    (rm : EntryPoint) (hflag : delete_after_download argv = true)
    (hr : p.GetProcAddress hDLL "delete_file" = some rm)
    (hz : dl (argv.getD 1 "") ≠ 0) (line : String)
    (hstdin : p.stdin_line = some line) (hline : line ≠ "") :
    (main p argv).2.filter isCallDelete = [.callDelete (c_str line)] ∧
    ((∀ c ∈ line.data, c ≠ Char.ofNat 0) →
      (main p argv).2.filter isCallDelete = [.callDelete line]) ∧
    (Event.cout ("File deletion successful!" ++ endl) ∈ (main p argv).2 ↔
      rm (c_str line) ≠ 0) ∧
    (Event.cout ("File deletion failed." ++ endl) ∈ (main p argv).2 ↔
      rm (c_str line) = 0) := by
  have hget : p.stdin_line.getD "" = line := by rw [hstdin]; rfl
  rw [main_delete p argv h hDLL hl dl hd rm hflag hr hz (by rw [hget]; exact hline), hget]
  refine ⟨?_, fun hnul => ?_, ?_⟩
  · by_cases hdz : rm (c_str line) = 0 <;>
      simp [-List.getD_eq_getElem?_getD, isCallDelete, hdz]
  · rw [← c_str_of_no_nul line hnul, c_str_idem]
    by_cases hdz : rm (c_str line) = 0 <;>
      simp [-List.getD_eq_getElem?_getD, isCallDelete, hdz]
  · by_cases hdz : rm (c_str line) = 0 <;>
      simp +decide [-List.getD_eq_getElem?_getD, hdz,
        Ne.symm (downloading_ne_deletion_successful _),
        Ne.symm (downloading_ne_deletion_failed _),
        Ne.symm (deleting_ne_deletion_successful _),
        Ne.symm (deleting_ne_deletion_failed _)]

theorem delete_called_once_with_c_string_witness :
    2 ≤ (["example_usage", "ok", "--delete"] : List String).length ∧
    (" out/video one.mp4 " : String) ≠ "" ∧
    (main (stub 1 0 (some " out/video one.mp4 ")) ["example_usage", "ok", "--delete"]).2.filter
      isCallDelete = [.callDelete " out/video one.mp4 "] ∧
    Event.cout ("File deletion failed." ++ endl) ∈
      (main (stub 1 0 (some " out/video one.mp4 ")) ["example_usage", "ok", "--delete"]).2 :=
  ⟨by decide, by decide,
    (delete_called_once_with_c_string (stub 1 0 (some " out/video one.mp4 "))
      ["example_usage", "ok", "--delete"] (by decide) 7 rfl (fun _ => 1) rfl (fun _ => 0)
      (by decide) rfl (by decide) " out/video one.mp4 " rfl (by decide)).2.1 (by decide),
    (delete_called_once_with_c_string (stub 1 0 (some " out/video one.mp4 "))
      ["example_usage", "ok", "--delete"] (by decide) 7 rfl (fun _ => 1) rfl (fun _ => 0)
      (by decide) rfl (by decide) " out/video one.mp4 " rfl (by decide)).2.2.2.2 rfl⟩

/-- C8 as stated fails: with `--delete`, a successful download and the non-empty line
`a`, NUL, `b` on standard input, the only call of `delete_file` is on `a`, not on
the line; and for the non-empty line NUL, `a`, `b`, `c` it is on the empty path. -/
theorem nul_line_is_cut :
    delete_after_download ["example_usage", "ok", "--delete"] = true ∧
    String.mk ['a', Char.ofNat 0, 'b'] ≠ "" ∧
    Event.cout ("Download successful!" ++ endl) ∈
      (main (stub 1 1 (some (String.mk ['a', Char.ofNat 0, 'b'])))
        ["example_usage", "ok", "--delete"]).2 ∧
    (main (stub 1 1 (some (String.mk ['a', Char.ofNat 0, 'b'])))
      ["example_usage", "ok", "--delete"]).2.filter isCallDelete = [.callDelete "a"] ∧
    Event.callDelete (String.mk ['a', Char.ofNat 0, 'b']) ∉
      (main (stub 1 1 (some (String.mk ['a', Char.ofNat 0, 'b'])))
        ["example_usage", "ok", "--delete"]).2 ∧
    String.mk [Char.ofNat 0, 'a', 'b', 'c'] ≠ "" ∧
    (main (stub 1 1 (some (String.mk [Char.ofNat 0, 'a', 'b', 'c'])))
      ["example_usage", "ok", "--delete"]).2.filter isCallDelete = [.callDelete ""] := by
  decide

/-- C9: over the trace of every run, `FreeLibrary` is called exactly once, on the
handle `LoadLibrary` gave, when the module was loaded, and never when it was not; it
is then the last event of the run, so whatever the trace is split at a release
event, nothing follows it: no call of an entry point and no symbol resolution. -/
theorem library_released_once_and_last (p : Platform) (argv : List String) :
    (2 ≤ argv.length → ∀ hDLL, p.LoadLibrary "downloader_dll.pyd" = some hDLL →
      (main p argv).2.filter isFreeLibrary = [.freeLibrary hDLL] ∧
      (main p argv).2.getLast? = some (.freeLibrary hDLL)) ∧
    ((argv.length < 2 ∨ p.LoadLibrary "downloader_dll.pyd" = none) →
      (main p argv).2.filter isFreeLibrary = []) ∧
    (∀ pre post k, (main p argv).2 = pre ++ Event.freeLibrary k :: post →
      post = [] ∧ ∀ e ∈ post, isCallDownload e = false ∧ isCallDelete e = false) := by
  have key : (2 ≤ argv.length → ∀ hDLL, p.LoadLibrary "downloader_dll.pyd" = some hDLL →
      (main p argv).2.filter isFreeLibrary = [.freeLibrary hDLL] ∧
      (main p argv).2.getLast? = some (.freeLibrary hDLL)) ∧
    ((argv.length < 2 ∨ p.LoadLibrary "downloader_dll.pyd" = none) →
      (main p argv).2.filter isFreeLibrary = []) := by
    refine main_cases p argv
      (fun t =>
        (2 ≤ argv.length → ∀ hDLL, p.LoadLibrary "downloader_dll.pyd" = some hDLL →
          t.2.filter isFreeLibrary = [.freeLibrary hDLL] ∧
          t.2.getLast? = some (.freeLibrary hDLL)) ∧
        ((argv.length < 2 ∨ p.LoadLibrary "downloader_dll.pyd" = none) →
          t.2.filter isFreeLibrary = [])) ?_ ?_ ?_ ?_ ?_ ?_ ?_ ?_
    · intro h
      exact ⟨fun h2 => absurd h2 (by omega), fun _ => by simp [usage, isFreeLibrary]⟩
    · intro h hl
      exact ⟨fun _ k hk => absurd (hl.symm.trans hk) (by simp),
        fun _ => by simp [isFreeLibrary]⟩
    · intro h hDLL hl hd
      refine ⟨fun _ k hk => ?_, fun hn => ?_⟩
      · rw [hl] at hk; cases hk; simp [isFreeLibrary]
      · rcases hn with hn | hn
        · omega
        · rw [hl] at hn; cases hn
    · intro h hDLL dl hl hd hflag hr
      refine ⟨fun _ k hk => ?_, fun hn => ?_⟩
      · rw [hl] at hk; cases hk; simp [isFreeLibrary]
      · rcases hn with hn | hn
        · omega
        · rw [hl] at hn; cases hn
    · intro h hDLL dl hl hd hflag
      refine ⟨fun _ k hk => ?_, fun hn => ?_⟩
      · rw [hl] at hk; cases hk
        by_cases hz : dl (argv.getD 1 "") = 0 <;>
          simp [-List.getD_eq_getElem?_getD, isFreeLibrary, hz]
      · rcases hn with hn | hn
        · omega
        · rw [hl] at hn; cases hn
    · intro h hDLL dl rm hl hd hflag hr hz
      refine ⟨fun _ k hk => ?_, fun hn => ?_⟩
      · rw [hl] at hk; cases hk; simp [isFreeLibrary]
      · rcases hn with hn | hn
        · omega
        · rw [hl] at hn; cases hn
    · intro h hDLL dl rm hl hd hflag hr hz hline
      refine ⟨fun _ k hk => ?_, fun hn => ?_⟩
      · rw [hl] at hk; cases hk; simp [isFreeLibrary]
      · rcases hn with hn | hn
        · omega
        · rw [hl] at hn; cases hn
    · intro h hDLL dl rm hl hd hflag hr hz hline
      refine ⟨fun _ k hk => ?_, fun hn => ?_⟩
      · rw [hl] at hk; cases hk
        by_cases hdz : rm (c_str (p.stdin_line.getD "")) = 0 <;> simp [isFreeLibrary, hdz]
      · rcases hn with hn | hn
        · omega
        · rw [hl] at hn; cases hn
  refine ⟨key.1, key.2, fun pre post k hsplit => ?_⟩
  have hpost : post = [] := by
    by_cases h : argv.length < 2
    · have hnone := key.2 (Or.inl h)
      rw [hsplit] at hnone
      simp [List.filter_append, List.filter_cons, isFreeLibrary] at hnone
    · cases hl : p.LoadLibrary "downloader_dll.pyd" with
      | none =>
        have hnone := key.2 (Or.inr hl)
        rw [hsplit] at hnone
        simp [List.filter_append, List.filter_cons, isFreeLibrary] at hnone
      | some hDLL =>
        obtain ⟨hf, hlast⟩ := key.1 (not_lt.mp h) hDLL hl
        exact nothing_after_last isFreeLibrary _ pre post (.freeLibrary hDLL)
          (.freeLibrary k) hf hlast rfl hsplit
  subst hpost
  exact ⟨rfl, by simp⟩

theorem library_released_once_and_last_witness :
    2 ≤ (["example_usage", "ok", "--delete"] : List String).length ∧
    (main (stub 0 1 none) ["example_usage", "ok", "--delete"]).2.filter isFreeLibrary
      = [.freeLibrary 7] ∧
    (main (stub 0 1 none) ["example_usage", "ok", "--delete"]).2.getLast?
      = some (.freeLibrary 7) :=
  ⟨by decide,
    (library_released_once_and_last (stub 0 1 none)
      ["example_usage", "ok", "--delete"]).1 (by decide) 7 rfl⟩

/-- C10: no run of `main` transfers control through a `NULL` function pointer:
whenever `delete_file` is called, deletion mode was enabled and `GetProcAddress` gave
a non-`NULL` address for `delete_file` on the loaded module earlier in the same run;
without `--delete` the symbol is never resolved and the pointer is never called. -/
theorem delete_pointer_never_null (p : Platform) (argv : List String) :
    (main p argv).1 ≠ .nullCall ∧
    (∀ arg, Event.callDelete arg ∈ (main p argv).2 →
      delete_after_download argv = true ∧
      ∃ hDLL rm, p.LoadLibrary "downloader_dll.pyd" = some hDLL ∧
        p.GetProcAddress hDLL "delete_file" = some rm ∧
        ∃ pre post, (main p argv).2 = pre ++ Event.callDelete arg :: post ∧
          Event.getProcAddress hDLL "delete_file" ∈ pre) ∧
    (delete_after_download argv = false →
      ∀ e ∈ (main p argv).2, isCallDelete e = false ∧
        ∀ k, e ≠ Event.getProcAddress k "delete_file") := by
  refine main_cases p argv
    (fun t =>
      t.1 ≠ .nullCall ∧
      (∀ arg, Event.callDelete arg ∈ t.2 →
        delete_after_download argv = true ∧
        ∃ hDLL rm, p.LoadLibrary "downloader_dll.pyd" = some hDLL ∧
          p.GetProcAddress hDLL "delete_file" = some rm ∧
          ∃ pre post, t.2 = pre ++ Event.callDelete arg :: post ∧
            Event.getProcAddress hDLL "delete_file" ∈ pre) ∧
      (delete_after_download argv = false →
        ∀ e ∈ t.2, isCallDelete e = false ∧
          ∀ k, e ≠ Event.getProcAddress k "delete_file")) ?_ ?_ ?_ ?_ ?_ ?_ ?_ ?_
  · intro h
    simp [usage, isCallDelete]
  · intro h hl
    simp [isCallDelete]
  · intro h hDLL hl hd
    simp +decide [isCallDelete]
  · intro h hDLL dl hl hd hflag hr
    simp [isCallDelete, hflag]
  · intro h hDLL dl hl hd hflag
    by_cases hz : dl (argv.getD 1 "") = 0 <;>
      simp +decide [-List.getD_eq_getElem?_getD, isCallDelete, hz]
  · intro h hDLL dl rm hl hd hflag hr hz
    simp [isCallDelete, hflag]
  · intro h hDLL dl rm hl hd hflag hr hz hline
    simp [isCallDelete, hflag]
  · intro h hDLL dl rm hl hd hflag hr hz hline
    refine ⟨by simp, fun arg harg => ?_, fun hc => absurd (hflag.symm.trans hc) (by decide)⟩
    have harg2 : arg = c_str (p.stdin_line.getD "") := by
      by_cases hdz : rm (c_str (p.stdin_line.getD "")) = 0 <;>
        simpa [-List.getD_eq_getElem?_getD, hdz] using harg
    subst harg2
    exact ⟨hflag, hDLL, rm, hl, hr,
      [.loadLibrary "downloader_dll.pyd",
        .getProcAddress hDLL "download_from_url", .getProcAddress hDLL "delete_file",
        .cout ("Downloading from URL: " ++ argv.getD 1 "" ++ endl),
        .callDownload (argv.getD 1 ""),
        .cout ("Download successful!" ++ endl),
        .cout "Enter the path of the file to delete: ",
        .readLine,
        .cout ("Deleting file: " ++ p.stdin_line.getD "" ++ endl)],
      [if rm (c_str (p.stdin_line.getD "")) ≠ 0 then .cout ("File deletion successful!" ++ endl)
        else .cout ("File deletion failed." ++ endl),
        .freeLibrary hDLL], rfl, by simp⟩

theorem delete_pointer_never_null_witness :
    Event.callDelete "video.mp4" ∈
      (main (stub 1 1 (some "video.mp4")) ["example_usage", "ok", "--delete"]).2 ∧
    delete_after_download ["example_usage", "ok", "--delete"] = true ∧
    (main (stub 1 1 (some "video.mp4")) ["example_usage", "ok", "--delete"]).1 ≠ .nullCall :=
  ⟨by decide,
    ((delete_pointer_never_null (stub 1 1 (some "video.mp4"))
      ["example_usage", "ok", "--delete"]).2.1 "video.mp4" (by decide)).1,
    (delete_pointer_never_null (stub 1 1 (some "video.mp4"))
      ["example_usage", "ok", "--delete"]).1⟩

end ExampleUsage
